import Mathlib

/-!
Verification of the quantitative core of the pharmacy-invoice analytics
repository: the projection engine in `src/lib/projections.ts` and the
anomaly / reorder engine in the database layer.

Modelling conventions.  JavaScript numbers are embedded as elements of a
linear ordered field (`ℚ` for the executable statistics primitives, `ℝ`
for the full pipeline, which takes a square root).  Wherever the source
can produce a non-finite JavaScript value (`NaN`, `Infinity`) the model
uses `Option`: `some q` is the finite value `q`, `none` marks a
non-finite result.  Division sites that the source guards (so that the
divisor is provably non-zero) are translated with ordinary field
division.
-/

namespace PharmacyInvoices

/-- Trend classification, from the `trend` union type of
`ProjectionResult.metrics` in `src/lib/projections.ts`. -/
inductive Trend where
  | up : Trend
  | down : Trend
  | stable : Trend
deriving DecidableEq, Repr

/-- Urgency levels of a reorder recommendation (`'low' | 'medium' | 'high'`). -/
inductive Urgency where
  | low : Urgency
  | medium : Urgency
  | high : Urgency
deriving DecidableEq, Repr

/-- Period granularity (`'week' | 'month' | 'year'`). -/
inductive PeriodType where
  | week : PeriodType
  | month : PeriodType
  | year : PeriodType
deriving DecidableEq, Repr

/-- Result record of `linearRegression`. -/
structure LinReg (α : Type) where
  slope : α
  intercept : α
  rSquared : α
deriving DecidableEq, Repr

variable {α : Type} [LinearOrderedField α] [DecidableEq α]

/-- Total sum of squares of a series about its mean: the `ssTotal`
accumulator of `linearRegression` in `src/lib/projections.ts`. -/
def ssTotal (data : List α) : α :=
  let yMean := data.sum / (data.length : α)
  (data.map (fun y => (y - yMean) ^ 2)).sum

/-- Ordinary least squares over index-vs-value, translated from
`linearRegression` in `src/lib/projections.ts` (lines 27-55).  The JS
`data[0] || 0` on the `n < 2` path is `headD 0` (`undefined` becomes 0,
and `0 || 0` is again 0). -/
def linearRegression (data : List α) : LinReg α :=
  let n := data.length
  if n < 2 then ⟨0, data.headD 0, 0⟩
  else
    let xMean : α := ((n : α) - 1) / 2
    let yMean : α := data.sum / (n : α)
    let numerator := (data.enum.map (fun p => ((p.1 : α) - xMean) * (p.2 - yMean))).sum
    let denominator := (data.enum.map (fun p => ((p.1 : α) - xMean) ^ 2)).sum
    let slope := if denominator ≠ 0 then numerator / denominator else 0
    let intercept := yMean - slope * xMean
    let ssResidual := (data.enum.map (fun p => (p.2 - (slope * (p.1 : α) + intercept)) ^ 2)).sum
    let rSquared := if ssTotal data ≠ 0 then 1 - ssResidual / ssTotal data else 0
    ⟨slope, intercept, rSquared⟩

/-- Simple moving average, translated from `movingAverage` in
`src/lib/projections.ts` (lines 57-65).  The JS start index
`Math.max(0, i - window + 1)` is the truncated subtraction `i + 1 - window`,
and `data.slice(start, i + 1)` is `(data.take (i+1)).drop start`.  For
`window ≥ 1` every slice is non-empty, matching the source's reachable
inputs (it is only called with `window = min 4 n ≥ 1`). -/
def movingAverage (data : List α) (window : ℕ) : List α :=
  (List.range data.length).map (fun i =>
    let slice := (data.take (i + 1)).drop (i + 1 - window)
    slice.sum / (slice.length : α))

/-- Exponential smoothing, translated from `exponentialSmoothing` in
`src/lib/projections.ts` (lines 67-74): `result[0] = data[0]`, then
`result[i] = alpha * data[i] + (1 - alpha) * result[i-1]`. -/
def exponentialSmoothing (data : List α) (alpha : α) : List α :=
  match data with
  | [] => []
  | x :: xs => List.scanl (fun prev y => alpha * y + (1 - alpha) * prev) x xs

/-- Radicand of `standardDeviation` in `src/lib/projections.ts`
(lines 76-81): the unbiased sample variance, 0 for fewer than 2 points. -/
def sampleVariance (data : List α) : α :=
  if data.length < 2 then 0
  else
    let mean := data.sum / (data.length : α)
    (data.map (fun x => (x - mean) ^ 2)).sum / ((data.length : α) - 1)

/-- Left-pad a numeral to two digits, as `String(n).padStart(2, '0')`. -/
def pad2 (n : ℕ) : String :=
  if n < 10 then "0" ++ toString n else toString n

/-- One step of the week-label loop in `generateFuturePeriods`
(`src/lib/projections.ts` lines 91-95): `currentWeek++`, rolling past 52
into week 1 of the next year. -/
def nextWeekPeriod (yw : ℕ × ℕ) : ℕ × ℕ :=
  if yw.2 + 1 > 52 then (yw.1 + 1, 1) else (yw.1, yw.2 + 1)

/-- One step of the month-label loop (lines 101-105): `currentMonth++`,
rolling past 12 into month 1 of the next year. -/
def nextMonthPeriod (ym : ℕ × ℕ) : ℕ × ℕ :=
  if ym.2 + 1 > 12 then (ym.1 + 1, 1) else (ym.1, ym.2 + 1)

/-- Format a `(year, week)` pair as `YYYY-WW`. -/
def weekLabel (yw : ℕ × ℕ) : String :=
  toString yw.1 ++ "-" ++ pad2 yw.2

/-- Format a `(year, month)` pair as `YYYY-MM`. -/
def monthLabel (ym : ℕ × ℕ) : String :=
  toString ym.1 ++ "-" ++ pad2 ym.2

/-- The week branch of `generateFuturePeriods`: push `count` labels,
advancing the `(year, week)` cursor before each push. -/
def futureWeekPeriods : ℕ × ℕ → ℕ → List String
  | _, 0 => []
  | yw, n + 1 =>
    let yw' := nextWeekPeriod yw
    weekLabel yw' :: futureWeekPeriods yw' n

/-- The month branch of `generateFuturePeriods`. -/
def futureMonthPeriods : ℕ × ℕ → ℕ → List String
  | _, 0 => []
  | ym, n + 1 =>
    let ym' := nextMonthPeriod ym
    monthLabel ym' :: futureMonthPeriods ym' n

/-- The year branch of `generateFuturePeriods`: `currentYear++` then push. -/
def futureYearPeriods : ℕ → ℕ → List String
  | _, 0 => []
  | y, n + 1 => toString (y + 1) :: futureYearPeriods (y + 1) n

/-- Component `i` of `lastPeriod.split('-').map(Number)`.  JS `Number` is
modelled by `String.toNat?` on the digit strings this application
formats; a missing or non-numeric component collapses to 0. -/
def periodComponent (s : String) (i : ℕ) : ℕ :=
  (((s.splitOn "-").get? i).bind String.toNat?).getD 0

/-- Future period labels, translated from `generateFuturePeriods` in
`src/lib/projections.ts` (lines 83-115). -/
def generateFuturePeriods (lastPeriod : String) (count : ℕ) :
    PeriodType → List String
  | .week => futureWeekPeriods (periodComponent lastPeriod 0, periodComponent lastPeriod 1) count
  | .month => futureMonthPeriods (periodComponent lastPeriod 0, periodComponent lastPeriod 1) count
  | .year => futureYearPeriods (lastPeriod.toNat?.getD 0) count

/-- Row of the `spend_by_period` collaborator query consumed by
`generateProjections` (fields `period` and `total`). -/
structure SpendPeriod where
  period : String
  total : ℝ

/-- Historical echo entry (`DataPoint` of `src/lib/projections.ts`). -/
structure DataPoint where
  period : String
  value : ℝ

/-- An emitted projection (`Projection` of `src/lib/projections.ts`).
The numeric fields are `Option ℝ`: `none` records that the JS
computation produces a non-finite number there. -/
structure Projection where
  period : String
  projected : Option ℝ
  lower_bound : Option ℝ
  upper_bound : Option ℝ

/-- The `metrics` record of `ProjectionResult`.  `growth_rate` is
`none` when the JS computation is non-finite; `r_squared` is `none`
when the optional field is absent (the empty-series early return). -/
structure Metrics where
  trend : Trend
  growth_rate : Option ℝ
  confidence : ℝ
  r_squared : Option ℝ

/-- The `ProjectionResult` record of `src/lib/projections.ts`. -/
structure ProjectionResult where
  historical : List DataPoint
  projections : List Projection
  metrics : Metrics

/-- Sample standard deviation, translated from `standardDeviation` in
`src/lib/projections.ts` (lines 76-81): square root of the unbiased
sample variance, 0 for fewer than 2 points. -/
noncomputable def standardDeviation (data : List ℝ) : ℝ :=
  if data.length < 2 then 0 else Real.sqrt (sampleVariance data)

/-- The moving-average trend factor
`ma[last] * (1 + (slope / ma[last] || 0)) ** (i + 1)` of
`generateProjections` (line 147), under JS float semantics.  When
`lastMA ≠ 0` the ratio is finite (`r || 0` only rewrites `0` to itself).
When `lastMA = 0` and `slope = 0`, `0/0` is `NaN`, which is falsy, so
`|| 0` yields ratio 0 and the product is `0 * 1 ** (i+1) = 0`.  When
`lastMA = 0` and `slope ≠ 0`, `slope/0` is `±Infinity`, which is truthy
and survives `|| 0`; the result is `0 * (±Infinity) = NaN`, recorded as
`none`. -/
noncomputable def maTrendJS (lastMA slope : ℝ) (i : ℕ) : Option ℝ :=
  if lastMA = 0 then (if slope = 0 then some 0 else none)
  else some (lastMA * (1 + slope / lastMA) ^ (i + 1))

/-- The body of the `futurePeriods.map` callback of `generateProjections`
(`src/lib/projections.ts` lines 144-159), with the captured context
passed explicitly: `slope`/`intercept` from the regression, the last
smoothed value, the last moving average, the standard deviation, and
`n = values.length`.  A `NaN` moving-average trend contaminates all
three numeric outputs (`Math.max(0, NaN)` is `NaN`). -/
noncomputable def projectionAt (slope intercept lastSmoothed lastMA stdDev : ℝ)
    (n : ℕ) (ip : ℕ × String) : Projection :=
  let i := ip.1
  let linearProjection := slope * ((n : ℝ) + (i : ℝ)) + intercept
  let smoothedTrend := lastSmoothed + slope * ((i : ℝ) + 1)
  match maTrendJS lastMA slope i with
  | none => ⟨ip.2, none, none, none⟩
  | some maTrend =>
    let projected := linearProjection * (4 / 10) + smoothedTrend * (35 / 100) + maTrend * (25 / 100)
    let uncertaintyGrowth := 1 + (i : ℝ) * (1 / 10)
    let margin := stdDev * (196 / 100) * uncertaintyGrowth
    ⟨ip.2, some (max 0 projected), some (max 0 (projected - margin)),
      some (projected + margin)⟩

/-- Trend classification of `generateProjections` (lines 161-166):
`recentGrowth = (last - prev) / prev` (0 when fewer than 2 points),
`up` above 0.05, `down` below -0.05, else `stable`.  The division is
unguarded in the source; when `prev = 0` JS yields `+Infinity` (`up`),
`-Infinity` (`down`) or `NaN` (neither comparison holds, `stable`)
according to the sign of `last`, which the first branch encodes. -/
noncomputable def trendOf (values : List ℝ) : Trend :=
  if values.length < 2 then .stable
  else
    let last := values.getLastD 0
    let prev := values.dropLast.getLastD 0
    if prev = 0 then
      (if last > 0 then .up else if last < 0 then .down else .stable)
    else
      let recentGrowth := (last - prev) / prev
      if recentGrowth > 5 / 100 then .up
      else if recentGrowth < -(5 / 100) then .down
      else .stable

/-- Overall growth metric of `generateProjections` (lines 168-170):
`((last - first) / first) * 100` when there are at least 2 points, else
0.  The division is unguarded in the source; `first = 0` yields
`±Infinity` (or `NaN` when `last = 0` too), recorded as `none`. -/
noncomputable def growthRateJS (values : List ℝ) : Option ℝ :=
  if values.length < 2 then some 0
  else
    let first := values.headD 0
    let last := values.getLastD 0
    if first = 0 then none
    else some ((last - first) / first * 100)

/-- The projection engine, translated from `generateProjections` in
`src/lib/projections.ts` (lines 117-182), with the historical series
(the rows of the `getSpendByPeriod` collaborator query) passed as a
parameter. -/
noncomputable def generateProjections (periodType : PeriodType)
    (periodsToProject : ℕ) (historicalData : List SpendPeriod) :
    ProjectionResult :=
  if historicalData.isEmpty then
    ⟨[], [], ⟨.stable, some 0, 0, none⟩⟩
  else
    let values := historicalData.map (·.total)
    let periods := historicalData.map (·.period)
    let lr := linearRegression values
    let smoothed := exponentialSmoothing values (3 / 10)
    let ma := movingAverage values (min 4 values.length)
    let futurePeriods :=
      generateFuturePeriods (periods.getLastD "") periodsToProject periodType
    let stdDev := standardDeviation values
    let projections := futurePeriods.enum.map
      (projectionAt lr.slope lr.intercept (smoothed.getLastD 0)
        (ma.getLastD 0) stdDev values.length)
    ⟨historicalData.map (fun d => ⟨d.period, d.total⟩),
      projections,
      ⟨trendOf values, growthRateJS values,
        max 0 (min 100 (lr.rSquared * 100)), some lr.rSquared⟩⟩

/-- A `line_items` row as seen by the anomaly queries: product name,
how many days before the current date it was invoiced, and quantity. -/
structure LineItem where
  product : String
  daysAgo : ℕ
  quantity : ℚ

/-- Quantities of a product's line items from the last `days` days
(`invoice_date >= CURRENT_DATE - INTERVAL 'days'`). -/
def windowQuantities (items : List LineItem) (days : ℕ) (p : String) : List ℚ :=
  (items.filter (fun it => it.product == p && decide (it.daysAgo ≤ days))).map (·.quantity)

/-- The `product_avg` CTE of the spike query in `detectAnomalies`:
`AVG(quantity)` over the last 30 days, `none` when the product has no
row in the window (SQL `GROUP BY` emits no group). -/
def avgQty30 (items : List LineItem) (p : String) : Option ℚ :=
  let xs := windowQuantities items 30 p
  if xs.isEmpty then none else some (xs.sum / (xs.length : ℚ))

/-- The `recent` CTE of the spike query: `SUM(quantity)` over the last
7 days, `none` when the product has no row in the window. -/
def recentQty7 (items : List LineItem) (p : String) : Option ℚ :=
  let xs := windowQuantities items 7 p
  if xs.isEmpty then none else some xs.sum

/-- The spike decision of `detectAnomalies`: the product appears in the
join of the two CTEs and satisfies
`recent_qty > avg_qty * 1.5 AND avg_qty > 5`. -/
def spikeFlagged (items : List LineItem) (p : String) : Bool :=
  match recentQty7 items p, avgQty30 items p with
  | some r, some a => decide (r > a * (3 / 2)) && decide (a > 5)
  | _, _ => false

/-- Days until the assumed reorder point, from `getReorderRecommendations`:
`daysUntilReorder = typicalSupply - daysSinceOrder` with the fixed
84-day supply pattern. -/
def daysUntilReorder (daysSinceOrder : ℤ) : ℤ :=
  84 - daysSinceOrder

/-- Urgency assignment of `getReorderRecommendations`: start at `low`,
`high` when `daysUntilReorder < 7`, else `medium` when `< 21`. -/
def urgencyOf (d : ℤ) : Urgency :=
  if d < 7 then .high
  else if d < 21 then .medium
  else .low

/-- Urgency of a recommendation row as a function of its
`days_since_order` aggregate. -/
def reorderUrgency (daysSinceOrder : ℤ) : Urgency :=
  urgencyOf (daysUntilReorder daysSinceOrder)

/-- C9: with `days_until_reorder = 84 - days_since_last_order`, the
urgency of a reorder recommendation is `high` exactly when
`days_until_reorder < 7`, `medium` exactly when
`7 ≤ days_until_reorder < 21`, and `low` otherwise; in particular a
`days_until_reorder` of exactly 7 yields `medium` and exactly 21 yields
`low`. -/
theorem claim_C9_reorder_urgency (dso : ℤ) :
    (reorderUrgency dso = .high ↔ daysUntilReorder dso < 7) ∧
    (reorderUrgency dso = .medium ↔
      7 ≤ daysUntilReorder dso ∧ daysUntilReorder dso < 21) ∧
    (reorderUrgency dso = .low ↔ 21 ≤ daysUntilReorder dso) ∧
    urgencyOf 7 = .medium ∧ urgencyOf 21 = .low := by
  by_cases h7 : daysUntilReorder dso < 7 <;>
    by_cases h21 : daysUntilReorder dso < 21 <;>
      simp [reorderUrgency, urgencyOf, h7, h21] <;> omega

/-- Witness for C9 at `days_since_last_order = 77`, i.e.
`days_until_reorder = 7`. -/
theorem claim_C9_reorder_urgency_witness :
    reorderUrgency 77 = .medium ∧ urgencyOf 21 = .low :=
  ⟨(claim_C9_reorder_urgency 77).2.1.mpr (by decide),
   (claim_C9_reorder_urgency 77).2.2.2.2⟩

/-- C8: a demand spike is flagged exactly when the product appears in
both aggregation windows with `recentSum > 1.5 * trailingAverage` and
`trailingAverage > 5`; in particular a product whose trailing average is
at most 5 is never flagged. -/
theorem claim_C8_spike_guard (items : List LineItem) (p : String) :
    (spikeFlagged items p = true ↔
      ∃ r a, recentQty7 items p = some r ∧ avgQty30 items p = some a ∧
        r > a * (3 / 2) ∧ a > 5) ∧
    (∀ a, avgQty30 items p = some a → a ≤ 5 →
      spikeFlagged items p = false) := by
  constructor
  · rcases hr : recentQty7 items p with _ | r <;>
      rcases ha : avgQty30 items p with _ | a <;>
        simp [spikeFlagged, hr, ha]
  · intro a ha hle
    have h5 : ¬ (5 : ℚ) < a := not_lt.mpr hle
    rcases hr : recentQty7 items p with _ | r <;>
      simp [spikeFlagged, hr, ha, h5]

/-- Witness for C8: a product averaging 4 units over 30 days is not
flagged even though its recent sum is far above 1.5 times the average. -/
theorem claim_C8_spike_guard_witness :
    avgQty30 [⟨"amoxicillin", 2, 12⟩, ⟨"amoxicillin", 20, 0⟩,
        ⟨"amoxicillin", 25, 0⟩, ⟨"amoxicillin", 28, 0⟩] "amoxicillin" =
      some 3 ∧
    recentQty7 [⟨"amoxicillin", 2, 12⟩, ⟨"amoxicillin", 20, 0⟩,
        ⟨"amoxicillin", 25, 0⟩, ⟨"amoxicillin", 28, 0⟩] "amoxicillin" =
      some 12 ∧
    spikeFlagged [⟨"amoxicillin", 2, 12⟩, ⟨"amoxicillin", 20, 0⟩,
        ⟨"amoxicillin", 25, 0⟩, ⟨"amoxicillin", 28, 0⟩] "amoxicillin" =
      false := by
  have ha : avgQty30 [⟨"amoxicillin", 2, 12⟩, ⟨"amoxicillin", 20, 0⟩,
      ⟨"amoxicillin", 25, 0⟩, ⟨"amoxicillin", 28, 0⟩] "amoxicillin" =
      some 3 := by
    simp [avgQty30, windowQuantities, List.filter]
    norm_num
  have hr : recentQty7 [⟨"amoxicillin", 2, 12⟩, ⟨"amoxicillin", 20, 0⟩,
      ⟨"amoxicillin", 25, 0⟩, ⟨"amoxicillin", 28, 0⟩] "amoxicillin" =
      some 12 := by
    simp [recentQty7, windowQuantities, List.filter]
  exact ⟨ha, hr, (claim_C8_spike_guard _ _).2 3 ha (by norm_num)⟩

/-- C4: on an empty historical series, `generateProjections` returns
empty historical and projections arrays and metrics with trend
`stable`, growth rate 0 and confidence 0 (the optional `r_squared`
field is absent), for every period type and horizon, without error. -/
theorem claim_C4_empty_series (pt : PeriodType) (count : ℕ) :
    generateProjections pt count [] =
      ⟨[], [], ⟨.stable, some 0, 0, none⟩⟩ := rfl

/-- C5: `linearRegression` returns slope 0, intercept the single value
(or 0 when empty) and R² equal to 0 on series of fewer than 2 points,
and returns R² equal to 0 (not 1) on every series whose total sum of
squares is 0. -/
theorem claim_C5_regression_edges :
    linearRegression ([] : List ℚ) = ⟨0, 0, 0⟩ ∧
    (∀ x : ℚ, linearRegression [x] = ⟨0, x, 0⟩) ∧
    (∀ data : List ℚ, ssTotal data = 0 →
      (linearRegression data).rSquared = 0) := by
  refine ⟨rfl, fun x => rfl, fun data h => ?_⟩
  by_cases hn : data.length < 2
  · simp [linearRegression, hn]
  · simp [linearRegression, hn, h]

/-- Witness for C5 on the constant two-point series `[7, 7]`, whose
total sum of squares is 0. -/
theorem claim_C5_regression_edges_witness :
    ssTotal [(7 : ℚ), 7] = 0 ∧
    (linearRegression [(7 : ℚ), 7]).rSquared = 0 := by
  have h : ssTotal [(7 : ℚ), 7] = 0 := by
    norm_num [ssTotal]
  exact ⟨h, claim_C5_regression_edges.2.2 _ h⟩

/-- C6: `movingAverage` preserves length, its `i`-th entry is the mean
of the trailing window of size `min window (i+1)` ending at `i`, and
the two concrete examples of the spec hold. -/
theorem claim_C6_moving_average (data : List ℚ) (window : ℕ) :
    (movingAverage data window).length = data.length ∧
    (∀ i, i < data.length →
      ((movingAverage data window)[i]? =
        some (((data.take (i + 1)).drop (i + 1 - window)).sum /
          (((data.take (i + 1)).drop (i + 1 - window)).length : ℚ)) ∧
      ((data.take (i + 1)).drop (i + 1 - window)).length =
        min window (i + 1))) ∧
    movingAverage [(5 : ℚ), 5, 5, 5] 4 = [5, 5, 5, 5] ∧
    movingAverage [(1 : ℚ), 2, 3, 4] 2 = [1, 3 / 2, 5 / 2, 7 / 2] := by
  refine ⟨by simp [movingAverage], fun i hi => ⟨?_, ?_⟩, ?_, ?_⟩
  · simp [movingAverage, List.getElem?_map, List.getElem?_range hi]
  · simp [List.length_drop, List.length_take]
    omega
  · simp [movingAverage, List.range_succ]
    norm_num
  · simp [movingAverage, List.range_succ]
    norm_num

/-- Witness for C6: the third entry of `movingAverage [1,2,3,4] 2` is
the mean of the window `[2, 3]`. -/
theorem claim_C6_moving_average_witness :
    (movingAverage [(1 : ℚ), 2, 3, 4] 2)[2]? =
      some ((([(1 : ℚ), 2, 3, 4].take 3).drop 1).sum /
        ((([(1 : ℚ), 2, 3, 4].take 3).drop 1).length : ℚ)) :=
  ((claim_C6_moving_average [(1 : ℚ), 2, 3, 4] 2).2.1 2 (by norm_num)).1

theorem standardDeviation_nonneg (data : List ℝ) :
    0 ≤ standardDeviation data := by
  unfold standardDeviation
  split
  · exact le_refl 0
  · exact Real.sqrt_nonneg _

theorem projectionAt_period (s ic ls lma sd : ℝ) (n : ℕ) (ip : ℕ × String) :
    (projectionAt s ic ls lma sd n ip).period = ip.2 := by
  rcases h : maTrendJS lma s ip.1 with _ | mt <;> simp [projectionAt, h]

theorem projectionAt_bounds (s ic ls lma sd : ℝ) (n : ℕ) (ip : ℕ × String)
    (hsd : 0 ≤ sd) (v l u : ℝ)
    (hv : (projectionAt s ic ls lma sd n ip).projected = some v)
    (hl : (projectionAt s ic ls lma sd n ip).lower_bound = some l)
    (hu : (projectionAt s ic ls lma sd n ip).upper_bound = some u) :
    0 ≤ l ∧ l ≤ v ∧ (0 ≤ u → v ≤ u) := by
  rcases h : maTrendJS lma s ip.1 with _ | mt
  · rw [projectionAt] at hv
    simp [h] at hv
  · rw [projectionAt] at hv hl hu
    simp only [h, Option.some.injEq] at hv hl hu
    set P := (s * ((n : ℝ) + (ip.1 : ℝ)) + ic) * (4 / 10) +
      (ls + s * ((ip.1 : ℝ) + 1)) * (35 / 100) + mt * (25 / 100) with hP
    set M := sd * (196 / 100) * (1 + (ip.1 : ℝ) * (1 / 10)) with hM
    have hMpos : 0 ≤ M := by
      apply mul_nonneg (mul_nonneg hsd (by norm_num))
      positivity
    subst hv hl hu
    refine ⟨le_max_left 0 _, max_le_max le_rfl (by linarith), fun h0 => ?_⟩
    exact max_le h0 (by linarith)

theorem generateProjections_projections (pt : PeriodType) (ct : ℕ)
    (d : SpendPeriod) (ds : List SpendPeriod) :
    (generateProjections pt ct (d :: ds)).projections =
      (generateFuturePeriods (((d :: ds).map (·.period)).getLastD "") ct pt).enum.map
        (projectionAt (linearRegression ((d :: ds).map (·.total))).slope
          (linearRegression ((d :: ds).map (·.total))).intercept
          ((exponentialSmoothing ((d :: ds).map (·.total)) (3 / 10)).getLastD 0)
          ((movingAverage ((d :: ds).map (·.total))
            (min 4 ((d :: ds).map (·.total)).length)).getLastD 0)
          (standardDeviation ((d :: ds).map (·.total)))
          ((d :: ds).map (·.total)).length) := rfl

theorem generateProjections_metrics (pt : PeriodType) (ct : ℕ)
    (d : SpendPeriod) (ds : List SpendPeriod) :
    (generateProjections pt ct (d :: ds)).metrics =
      ⟨trendOf ((d :: ds).map (·.total)),
        growthRateJS ((d :: ds).map (·.total)),
        max 0 (min 100 ((linearRegression ((d :: ds).map (·.total))).rSquared * 100)),
        some (linearRegression ((d :: ds).map (·.total))).rSquared⟩ := rfl

theorem projectionAt_eval (s ic ls lma sd : ℝ) (n i : ℕ) (lbl : String)
    (hlma : lma ≠ 0) :
    projectionAt s ic ls lma sd n (i, lbl) =
      ⟨lbl,
        some (max 0 ((s * ((n : ℝ) + (i : ℝ)) + ic) * (4 / 10) +
          (ls + s * ((i : ℝ) + 1)) * (35 / 100) +
          lma * (1 + s / lma) ^ (i + 1) * (25 / 100))),
        some (max 0 (((s * ((n : ℝ) + (i : ℝ)) + ic) * (4 / 10) +
          (ls + s * ((i : ℝ) + 1)) * (35 / 100) +
          lma * (1 + s / lma) ^ (i + 1) * (25 / 100)) -
          sd * (196 / 100) * (1 + (i : ℝ) * (1 / 10)))),
        some (((s * ((n : ℝ) + (i : ℝ)) + ic) * (4 / 10) +
          (ls + s * ((i : ℝ) + 1)) * (35 / 100) +
          lma * (1 + s / lma) ^ (i + 1) * (25 / 100)) +
          sd * (196 / 100) * (1 + (i : ℝ) * (1 / 10)))⟩ := by
  simp [projectionAt, maTrendJS, hlma]

theorem projectionAt_nan (s ic ls sd : ℝ) (n i : ℕ) (lbl : String)
    (hs : s ≠ 0) :
    projectionAt s ic ls 0 sd n (i, lbl) = ⟨lbl, none, none, none⟩ := by
  simp [projectionAt, maTrendJS, hs]

/-- C1 (amended): every emitted `Projection` with finite fields has
`0 ≤ lower_bound` and `lower_bound ≤ projected`, and
`projected ≤ upper_bound` holds whenever `0 ≤ upper_bound`.  The claim's
unconditional `projected ≤ upper_bound` fails in the code: `projected`
is clamped at 0 but `upper_bound` is not, so a blended projection more
than one margin below 0 yields `upper_bound < 0 = projected`. -/
theorem claim_C1_bounds_amended (pt : PeriodType) (count : ℕ)
    (data : List SpendPeriod) (p : Projection)
    (hp : p ∈ (generateProjections pt count data).projections)
    (v l u : ℝ) (hv : p.projected = some v) (hl : p.lower_bound = some l)
    (hu : p.upper_bound = some u) :
    0 ≤ l ∧ l ≤ v ∧ (0 ≤ u → v ≤ u) := by
  rw [generateProjections] at hp
  by_cases he : data.isEmpty = true
  · simp [he] at hp
  · simp only [he, if_false, Bool.false_eq_true] at hp
    rcases List.mem_map.mp hp with ⟨ip, _, rfl⟩
    exact projectionAt_bounds _ _ _ _ _ _ _ (standardDeviation_nonneg _)
      v l u hv hl hu

/-- Counterexample to C1 as stated: for the declining series
`[3, 2, 1]` (yearly periods) and horizon 6, the projection at offset 5
has `projected = 0` (the raw blend `-53211/16000` clamped at 0) while
`upper_bound = -6171/16000 < 0`, so
`lower_bound ≤ projected ≤ upper_bound` fails. -/
theorem claim_C1_bounds_counterexample :
    ((generateProjections .year 6 [⟨"2020", 3⟩, ⟨"2021", 2⟩, ⟨"2022", 1⟩]).projections.map
        Projection.projected)[5]? = some (some (0 : ℝ)) ∧
    ((generateProjections .year 6 [⟨"2020", 3⟩, ⟨"2021", 2⟩, ⟨"2022", 1⟩]).projections.map
        Projection.upper_bound)[5]? = some (some (-(6171 / 16000) : ℝ)) ∧
    ¬ ((0 : ℝ) ≤ -(6171 / 16000)) := by
  have hlr : linearRegression ([3, 2, 1] : List ℝ) = ⟨-1, 3, 1⟩ := by
    norm_num [linearRegression, ssTotal, List.enum, List.enumFrom]
  have hsm : exponentialSmoothing ([3, 2, 1] : List ℝ) (3 / 10) =
      [3, 27 / 10, 219 / 100] := by
    norm_num [exponentialSmoothing, List.scanl]
  have hma : movingAverage ([3, 2, 1] : List ℝ) 3 = [3, 5 / 2, 2] := by
    norm_num [movingAverage, List.range_succ]
  have hsd : standardDeviation ([3, 2, 1] : List ℝ) = 1 := by
    rw [standardDeviation]
    norm_num [sampleVariance]
  rw [generateProjections_projections]
  norm_num [hlr, hsm, hma, hsd, generateFuturePeriods, futureYearPeriods,
    List.enum, List.enumFrom, projectionAt_eval, max_def]

/-- Witness for the amended C1 on the single-point series `[50]`: the
single emitted projection is `⟨label, some 50, some 50, some 50⟩` and
the amended bounds hold at it. -/
theorem claim_C1_bounds_amended_witness :
    (⟨toString ("2022".toNat?.getD 0 + 1), some 50, some 50, some 50⟩ : Projection) ∈
      (generateProjections .year 1 [⟨"2022", (50 : ℝ)⟩]).projections ∧
    ((0 : ℝ) ≤ 50 ∧ (50 : ℝ) ≤ 50 ∧ ((0 : ℝ) ≤ 50 → (50 : ℝ) ≤ 50)) := by
  have hprojs : (generateProjections .year 1 [⟨"2022", (50 : ℝ)⟩]).projections =
      [⟨toString ("2022".toNat?.getD 0 + 1), some 50, some 50, some 50⟩] := by
    rw [generateProjections_projections]
    norm_num [generateFuturePeriods, futureYearPeriods, List.enum, List.enumFrom,
      linearRegression, exponentialSmoothing, movingAverage, List.range_succ,
      standardDeviation, projectionAt_eval, max_def]
  have hp : (⟨toString ("2022".toNat?.getD 0 + 1), some 50, some 50, some 50⟩ : Projection) ∈
      (generateProjections .year 1 [⟨"2022", (50 : ℝ)⟩]).projections := by
    rw [hprojs]
    exact List.mem_singleton.mpr rfl
  exact ⟨hp, claim_C1_bounds_amended .year 1 [⟨"2022", (50 : ℝ)⟩] _ hp
    50 50 50 rfl rfl rfl⟩

/-- C7: on the constant series `[50, 50, 50, 50]` the sample standard
deviation is 0, so the margin is 0 and every emitted projection has
`lower_bound = projected = upper_bound`; and the reported `r_squared`
is 0 (not 1) because the total sum of squares is 0. -/
theorem claim_C7_constant_series (pt : PeriodType) (count : ℕ)
    (p1 p2 p3 p4 : String) :
    (∀ q ∈ (generateProjections pt count
        [⟨p1, 50⟩, ⟨p2, 50⟩, ⟨p3, 50⟩, ⟨p4, 50⟩]).projections,
      q.lower_bound = q.projected ∧ q.upper_bound = q.projected) ∧
    (generateProjections pt count
        [⟨p1, 50⟩, ⟨p2, 50⟩, ⟨p3, 50⟩, ⟨p4, 50⟩]).metrics.r_squared =
      some 0 := by
  have hlr : linearRegression ([50, 50, 50, 50] : List ℝ) = ⟨0, 50, 0⟩ := by
    norm_num [linearRegression, ssTotal, List.enum, List.enumFrom]
  have hsm : exponentialSmoothing ([50, 50, 50, 50] : List ℝ) (3 / 10) =
      [50, 50, 50, 50] := by
    norm_num [exponentialSmoothing, List.scanl]
  have hma : movingAverage ([50, 50, 50, 50] : List ℝ) 4 = [50, 50, 50, 50] := by
    norm_num [movingAverage, List.range_succ]
  have hsd : standardDeviation ([50, 50, 50, 50] : List ℝ) = 0 := by
    rw [standardDeviation]
    norm_num [sampleVariance]
  constructor
  · intro q hq
    rw [generateProjections_projections] at hq
    norm_num [hlr, hsm, hma, hsd] at hq
    rcases hq with ⟨i, lbl, _, rfl⟩
    rw [projectionAt_eval 0 50 50 50 0 4 i lbl (by norm_num)]
    norm_num
  · rw [generateProjections_metrics]
    norm_num [hlr]

/-- Witness for C7 at period type `year` and horizon 1: the lower-bound
column of the emitted projections coincides with the projected column,
and `r_squared` is reported as 0. -/
theorem claim_C7_constant_series_witness :
    ((generateProjections .year 1
        [⟨"2019", 50⟩, ⟨"2020", 50⟩, ⟨"2021", 50⟩, ⟨"2022", 50⟩]).projections.map
      Projection.lower_bound =
    (generateProjections .year 1
        [⟨"2019", 50⟩, ⟨"2020", 50⟩, ⟨"2021", 50⟩, ⟨"2022", 50⟩]).projections.map
      Projection.projected) ∧
    (generateProjections .year 1
        [⟨"2019", 50⟩, ⟨"2020", 50⟩, ⟨"2021", 50⟩, ⟨"2022", 50⟩]).metrics.r_squared =
      some 0 := by
  have h := claim_C7_constant_series .year 1 "2019" "2020" "2021" "2022"
  exact ⟨List.map_congr_left (fun q hq => (h.1 q hq).1), h.2⟩

/-- Evaluation for C2 at the failing input: with historical values
`[0, 5]`, the unguarded `((last - first) / first) * 100` divides by
zero and `metrics.growth_rate` is non-finite (`Infinity` in JS), not
the 0 the claim requires. -/
theorem claim_C2_growth_rate_nan :
    (generateProjections .year 1
        [⟨"2020", (0 : ℝ)⟩, ⟨"2021", 5⟩]).metrics.growth_rate = none ∧
    (none : Option ℝ) ≠ some 0 := by
  constructor
  · rw [generateProjections_metrics]
    norm_num [growthRateJS]
  · simp

/-- Evaluation for C3 at the failing input: with historical values
`[3, 0, 0, 0, 0]` the last moving average is 0 while the slope is
`-3/5 ≠ 0`, so `slope / lastMA` is `-Infinity`; being truthy it
survives `|| 0`, and `maTrend = 0 * (1 - Infinity) ^ 1 = NaN`
contaminates every numeric field of the emitted projection. -/
theorem claim_C3_matrend_nan :
    (generateProjections .year 1
        [⟨"2020", (3 : ℝ)⟩, ⟨"2021", 0⟩, ⟨"2022", 0⟩, ⟨"2023", 0⟩,
          ⟨"2024", 0⟩]).projections.map Projection.projected = [none] ∧
    (generateProjections .year 1
        [⟨"2020", (3 : ℝ)⟩, ⟨"2021", 0⟩, ⟨"2022", 0⟩, ⟨"2023", 0⟩,
          ⟨"2024", 0⟩]).projections.map Projection.lower_bound = [none] ∧
    (generateProjections .year 1
        [⟨"2020", (3 : ℝ)⟩, ⟨"2021", 0⟩, ⟨"2022", 0⟩, ⟨"2023", 0⟩,
          ⟨"2024", 0⟩]).projections.map Projection.upper_bound = [none] := by
  have hlr : linearRegression ([3, 0, 0, 0, 0] : List ℝ) =
      ⟨-(3 / 5), 9 / 5, 1 / 2⟩ := by
    norm_num [linearRegression, ssTotal, List.enum, List.enumFrom]
  have hma : movingAverage ([3, 0, 0, 0, 0] : List ℝ) 4 =
      [3, 3 / 2, 1, 3 / 4, 0] := by
    norm_num [movingAverage, List.range_succ]
  refine ⟨?_, ?_, ?_⟩ <;>
    · rw [generateProjections_projections]
      norm_num [hlr, hma, generateFuturePeriods, futureYearPeriods,
        List.enum, List.enumFrom, projectionAt_nan]

theorem futureWeekPeriods_eq_iterate :
    ∀ (n : ℕ) (yw : ℕ × ℕ), futureWeekPeriods yw n =
      (List.range n).map (fun j => weekLabel (nextWeekPeriod^[j + 1] yw)) := by
  intro n
  induction n with
  | zero => intro yw; rfl
  | succ n ih =>
    intro yw
    rw [futureWeekPeriods, List.range_succ_eq_map, List.map_cons, List.map_map,
      ih (nextWeekPeriod yw)]
    simp [Function.comp_def, Function.iterate_succ_apply]

theorem futureMonthPeriods_eq_iterate :
    ∀ (n : ℕ) (ym : ℕ × ℕ), futureMonthPeriods ym n =
      (List.range n).map (fun j => monthLabel (nextMonthPeriod^[j + 1] ym)) := by
  intro n
  induction n with
  | zero => intro ym; rfl
  | succ n ih =>
    intro ym
    rw [futureMonthPeriods, List.range_succ_eq_map, List.map_cons, List.map_map,
      ih (nextMonthPeriod ym)]
    simp [Function.comp_def, Function.iterate_succ_apply]

theorem futureYearPeriods_eq_iterate :
    ∀ (n : ℕ) (y : ℕ), futureYearPeriods y n =
      (List.range n).map (fun j => toString (y + (j + 1))) := by
  intro n
  induction n with
  | zero => intro y; rfl
  | succ n ih =>
    intro y
    rw [futureYearPeriods, List.range_succ_eq_map, List.map_cons, List.map_map,
      ih (y + 1)]
    have hc : ((fun j => toString (y + (j + 1))) ∘ Nat.succ) =
        (fun j => toString (y + 1 + (j + 1))) := by
      funext j
      simp only [Function.comp_def]
      congr 1
      omega
    rw [hc]

theorem generateFuturePeriods_length (lastPeriod : String) (count : ℕ)
    (pt : PeriodType) :
    (generateFuturePeriods lastPeriod count pt).length = count := by
  cases pt <;>
    simp [generateFuturePeriods, futureWeekPeriods_eq_iterate,
      futureMonthPeriods_eq_iterate, futureYearPeriods_eq_iterate]

/-- C10: for a non-empty historical series and any horizon count, the
projections array has length exactly the horizon count, and its period
labels are, in order, the labels produced by `generateFuturePeriods`
from the last historical label — which are the successive iterates of
the period-increment step, one per future offset. -/
theorem claim_C10_projection_labels (pt : PeriodType) (count : ℕ)
    (d : SpendPeriod) (ds : List SpendPeriod) :
    ((generateProjections pt count (d :: ds)).projections.length = count) ∧
    ((generateProjections pt count (d :: ds)).projections.map Projection.period =
      generateFuturePeriods (((d :: ds).map (·.period)).getLastD "") count pt) ∧
    (∀ yw n, futureWeekPeriods yw n =
      (List.range n).map (fun j => weekLabel (nextWeekPeriod^[j + 1] yw))) ∧
    (∀ ym n, futureMonthPeriods ym n =
      (List.range n).map (fun j => monthLabel (nextMonthPeriod^[j + 1] ym))) ∧
    (∀ y n, futureYearPeriods y n =
      (List.range n).map (fun j => toString (y + (j + 1)))) := by
  refine ⟨?_, ?_, fun yw n => futureWeekPeriods_eq_iterate n yw,
    fun ym n => futureMonthPeriods_eq_iterate n ym,
    fun y n => futureYearPeriods_eq_iterate n y⟩
  · rw [generateProjections_projections]
    simp [generateFuturePeriods_length]
  · rw [generateProjections_projections, List.map_map]
    have : (Projection.period ∘
        projectionAt (linearRegression ((d :: ds).map (·.total))).slope
          (linearRegression ((d :: ds).map (·.total))).intercept
          ((exponentialSmoothing ((d :: ds).map (·.total)) (3 / 10)).getLastD 0)
          ((movingAverage ((d :: ds).map (·.total))
            (min 4 ((d :: ds).map (·.total)).length)).getLastD 0)
          (standardDeviation ((d :: ds).map (·.total)))
          ((d :: ds).map (·.total)).length) = Prod.snd := by
      funext ip
      exact projectionAt_period _ _ _ _ _ _ ip
    rw [this, List.enum_map_snd]

end PharmacyInvoices
